import Mathlib

/-!
Verification of the interactive exercise engine of the devjourneydocs
documentation site, against its natural-language specification.

Source of truth under `src/`:
- `src/components/ProgressTracker.tsx` — the ProgressTracker component,
  embedded faithfully below.
- `src/pages/exercises/react/jsx-syntax-exercises.mdx` and
  `src/pages/exercises/react/introduction-to-react.mdx` — the exercise pages
  instantiating `Quiz`, `CodingChallenge` and `ProgressTracker`; the prop
  lists of their `CodingChallenge` elements are embedded below.

The `Quiz`, `CodingChallenge` and `CodeSandbox` components themselves are not
present in the repository snapshot (only their callers and a stylesheet are),
so they are modelled from the specification, as marked on each definition.
-/

/-! ## JavaScript numbers, as far as ProgressTracker needs them

`ProgressTracker` receives three JavaScript numbers and computes
`Math.round((completedTasks / totalTasks) * 100)`.  We model JavaScript
numbers as exact rationals extended with `NaN` and the two infinities.  The
integer inputs the repository passes, the division-by-zero behaviour and the
rounding behaviour the theorems below rely on are exact in IEEE-754 doubles
as well, so the model is faithful on everything the theorems touch. -/

inductive JSNum where
  | nan : JSNum
  | posInf : JSNum
  | negInf : JSNum
  | num : ℚ → JSNum
deriving DecidableEq, Repr

/-- JavaScript division: `NaN` is absorbing, `0/0` is `NaN`, a nonzero
finite numerator over `0` gives a signed infinity, a finite numerator over an
infinity gives `0`, and `∞/∞` is `NaN`. -/
def jsDiv : JSNum → JSNum → JSNum
  | .nan, _ => .nan
  | _, .nan => .nan
  | .posInf, .posInf => .nan
  | .posInf, .negInf => .nan
  | .negInf, .posInf => .nan
  | .negInf, .negInf => .nan
  | .posInf, .num q => if 0 ≤ q then .posInf else .negInf
  | .negInf, .num q => if 0 ≤ q then .negInf else .posInf
  | .num _, .posInf => .num 0
  | .num _, .negInf => .num 0
  | .num p, .num q =>
      if q = 0 then
        if p = 0 then .nan
        else if 0 < p then .posInf
        else .negInf
      else .num (p / q)

/-- JavaScript multiplication on the same extended domain: `NaN` is
absorbing, `∞ * 0` is `NaN`, otherwise signs multiply. -/
def jsMul : JSNum → JSNum → JSNum
  | .nan, _ => .nan
  | _, .nan => .nan
  | .posInf, .posInf => .posInf
  | .posInf, .negInf => .negInf
  | .negInf, .posInf => .negInf
  | .negInf, .negInf => .posInf
  | .posInf, .num q => if q = 0 then .nan else if 0 < q then .posInf else .negInf
  | .num q, .posInf => if q = 0 then .nan else if 0 < q then .posInf else .negInf
  | .negInf, .num q => if q = 0 then .nan else if 0 < q then .negInf else .posInf
  | .num q, .negInf => if q = 0 then .nan else if 0 < q then .negInf else .posInf
  | .num p, .num q => .num (p * q)

/-- `Math.round`: rounds half toward positive infinity; `NaN` and the
infinities pass through unchanged. -/
def jsRound : JSNum → JSNum
  | .nan => .nan
  | .posInf => .posInf
  | .negInf => .negInf
  | .num q => .num ((Rat.floor (q + 1 / 2) : ℤ) : ℚ)

/-- How a JavaScript number prints inside a template literal: `NaN`,
`Infinity`, `-Infinity`, and an integer with no decimal point.  (Non-integer
finite values print differently in JavaScript; no value displayed by
`ProgressTracker`'s template literals falls in the fallback branch in any
theorem below.) -/
def JSNum.display : JSNum → String
  | .nan => "NaN"
  | .posInf => "Infinity"
  | .negInf => "-Infinity"
  | .num q => if q.den = 1 then toString q.num else toString q

/-! ## ProgressTracker (embedded from `src/components/ProgressTracker.tsx`) -/

/-- The observable output of `ProgressTracker`'s JSX tree
(`src/components/ProgressTracker.tsx`, lines 18–31): the `h3` heading text,
the `width` style of the inner `progress` div, and the caption paragraph
text. -/
structure ProgressRender where
  heading : String
  progressBarWidth : String
  caption : String
deriving DecidableEq, Repr

/-- The `percentage` constant of `ProgressTracker.tsx` line 16:
`Math.round((completedTasks / totalTasks) * 100)`. -/
def percentageOf (completedTasks totalTasks : JSNum) : JSNum :=
  jsRound (jsMul (jsDiv completedTasks totalTasks) (JSNum.num 100))

/-- Embedding of the `ProgressTracker` component
(`src/components/ProgressTracker.tsx`, lines 11–32).  It is a pure total
function of its three props — the component has no hooks, no stored state and
no lifecycle methods, so its render output is determined by the props alone.
No validation of any prop is performed. -/
def ProgressTracker (sect completedTasks totalTasks : JSNum) : ProgressRender :=
  let percentage := percentageOf completedTasks totalTasks
  { heading := "Section " ++ sect.display ++ " Progress"
    progressBarWidth := percentage.display ++ "%"
    caption := completedTasks.display ++ " of " ++ totalTasks.display
        ++ " tasks completed (" ++ percentage.display ++ "%)" }

/-- Rendering prescribed by the specification (§6): the component "only
computes `round(completedTasks/totalTasks*100)` and renders a filled bar plus
the two counts". -/
def progressTrackerSpecRender (sect completedTasks totalTasks : JSNum) :
    ProgressRender :=
  let percentage := jsRound (jsMul (jsDiv completedTasks totalTasks) (JSNum.num 100))
  { heading := "Section " ++ sect.display ++ " Progress"
    progressBarWidth := percentage.display ++ "%"
    caption := completedTasks.display ++ " of " ++ totalTasks.display
        ++ " tasks completed (" ++ percentage.display ++ "%)" }

/-! ## Quiz (modelled from the spec; the component file is absent from the
repository snapshot) -/

/-- Modelled from the spec (§3): the immutable `QuizSpec` supplied at
construction — `question`, `options`, `correctAnswer`. -/
structure QuizSpec where
  question : String
  options : List String
  correctAnswer : String
deriving DecidableEq, Repr

/-- Modelled from the spec (§3): the mutable `QuizState` — an optional
`selectedOption` and a `submitted` flag. -/
structure QuizState where
  selectedOption : Option String
  submitted : Bool
deriving DecidableEq, Repr

namespace Quiz

/-- Modelled from the spec (§4.1): the initial `Unanswered` state —
`selectedOption` unset, `submitted = false`. -/
def initialState : QuizState :=
  { selectedOption := none, submitted := false }

/-- Modelled from the spec (§4.1): `select(option)` sets `selectedOption`;
no-op if `submitted` is true (the question is locked until `reset()`). -/
def select (o : String) (s : QuizState) : QuizState :=
  if s.submitted then s else { s with selectedOption := some o }

/-- Modelled from the spec (§4.1): `submit()` requires `selectedOption` to be
set (otherwise a no-op); sets `submitted = true`; idempotent while already
submitted. -/
def submit (s : QuizState) : QuizState :=
  if s.selectedOption.isSome then { s with submitted := true } else s

/-- Modelled from the spec (§4.1): `reset()` clears `selectedOption` and
`submitted`, returning to the initial state; available from every state. -/
def reset (s : QuizState) : QuizState :=
  { s with selectedOption := none, submitted := false }

/-- Modelled from the spec (§3): the derived value
`isCorrect = submitted && selectedOption == correctAnswer`. -/
def isCorrect (spec : QuizSpec) (s : QuizState) : Bool :=
  s.submitted && (s.selectedOption == some spec.correctAnswer)

/-- Modelled from the spec (§4.1, §7): construction validates
`options.includes(correctAnswer)`; a `correctAnswer` absent from `options` is
a configuration error caught at construction time, yielding no instance. -/
def construct (spec : QuizSpec) : Option (QuizSpec × QuizState) :=
  if spec.correctAnswer ∈ spec.options then some (spec, initialState) else none

end Quiz

/-- A user action on a Quiz instance, for quantifying over arbitrary
interaction sequences (`reset` is kept separate where a claim applies it). -/
inductive QuizOp where
  | select (o : String)
  | submit
deriving DecidableEq, Repr

/-- Apply one Quiz action. -/
def applyQuizOp (s : QuizState) : QuizOp → QuizState
  | .select o => Quiz.select o s
  | .submit => Quiz.submit s

/-- Apply a sequence of Quiz actions in order. -/
def applyQuizOps (ops : List QuizOp) (s : QuizState) : QuizState :=
  ops.foldl applyQuizOp s

/-! ## CodeSandbox and CodingChallenge (modelled from the spec; the component
files are absent from the repository snapshot) -/

/-- Modelled from the spec (§3): the immutable `ChallengeSpec` —
`initialCode` (starter source text) and `solutionCode` (reference source
text). -/
structure ChallengeSpec where
  initialCode : String
  solutionCode : String
deriving DecidableEq, Repr

/-- Modelled from the spec (§4.2): a `Result` is either a successful rendered
output or a captured error. -/
inductive RunResult where
  | success (output : String)
  | failure (message : String)
deriving DecidableEq, Repr

/-- Modelled from the spec (§3): the mutable `ChallengeState` — `draftCode`,
`viewingSolution`, and `lastRunOutput`. -/
structure ChallengeState where
  draftCode : String
  viewingSolution : Bool
  lastRunOutput : Option RunResult
deriving DecidableEq, Repr

/-- Modelled from the spec (§4.2): `CodeSandbox.run(code) → Result`.  The
browser's evaluation of the code string is abstracted as `evalFn`; a thrown
exception or syntax error is an `Except.error`.  `run` catches it and
converts it into an error `Result`, never propagating it — as a total Lean
function it cannot throw. -/
def CodeSandbox.run (evalFn : String → Except String String) (code : String) :
    RunResult :=
  match evalFn code with
  | .ok out => .success out
  | .error e => .failure e

namespace CodingChallenge

/-- Modelled from the spec (§3): initial state — `draftCode` initialized to
`initialCode`, not viewing the solution, no run output. -/
def initialState (spec : ChallengeSpec) : ChallengeState :=
  { draftCode := spec.initialCode, viewingSolution := false, lastRunOutput := none }

/-- Modelled from the spec (§4.3): the code currently displayed — the
solution while `viewingSolution`, otherwise the draft. -/
def displayedCode (spec : ChallengeSpec) (s : ChallengeState) : String :=
  if s.viewingSolution then spec.solutionCode else s.draftCode

/-- Modelled from the spec (§4.3): `edit(newText)` updates `draftCode` and
clears `lastRunOutput`; only valid while `viewingSolution` is false (a no-op
otherwise, per §7). -/
def edit (newText : String) (s : ChallengeState) : ChallengeState :=
  if s.viewingSolution then s
  else { s with draftCode := newText, lastRunOutput := none }

/-- Modelled from the spec (§4.3): `run()` calls `CodeSandbox.run` on the
code currently displayed and stores the result as `lastRunOutput`. -/
def run (evalFn : String → Except String String) (spec : ChallengeSpec)
    (s : ChallengeState) : ChallengeState :=
  { s with lastRunOutput := some (CodeSandbox.run evalFn (displayedCode spec s)) }

/-- Modelled from the spec (§4.3): `showSolution()` sets
`viewingSolution = true` and does not alter `draftCode`. -/
def showSolution (s : ChallengeState) : ChallengeState :=
  { s with viewingSolution := true }

/-- Modelled from the spec (§4.3): `hideSolution()` sets
`viewingSolution = false`, restoring the editor to `draftCode` exactly as it
was left. -/
def hideSolution (s : ChallengeState) : ChallengeState :=
  { s with viewingSolution := false }

/-- Modelled from the spec (§4.3): `tryAgain()` sets
`draftCode = initialCode`, `viewingSolution = false`, clears
`lastRunOutput`. -/
def tryAgain (spec : ChallengeSpec) (_ : ChallengeState) : ChallengeState :=
  { draftCode := spec.initialCode, viewingSolution := false, lastRunOutput := none }

end CodingChallenge

/-- A user action on a CodingChallenge instance, for quantifying over
arbitrary interaction sequences. -/
inductive ChallengeOp where
  | edit (newText : String)
  | run
  | showSolution
  | hideSolution
  | tryAgain
deriving DecidableEq, Repr

/-- Apply one CodingChallenge action. -/
def applyChallengeOp (evalFn : String → Except String String)
    (spec : ChallengeSpec) (s : ChallengeState) : ChallengeOp → ChallengeState
  | .edit newText => CodingChallenge.edit newText s
  | .run => CodingChallenge.run evalFn spec s
  | .showSolution => CodingChallenge.showSolution s
  | .hideSolution => CodingChallenge.hideSolution s
  | .tryAgain => CodingChallenge.tryAgain spec s

/-- Apply a sequence of CodingChallenge actions in order. -/
def applyChallengeOps (evalFn : String → Except String String)
    (spec : ChallengeSpec) (ops : List ChallengeOp) (s : ChallengeState) :
    ChallengeState :=
  ops.foldl (applyChallengeOp evalFn spec) s

/-! ## CodingChallenge instantiations in the exercise pages

Embedded from the two `.mdx` exercise pages: for each `<CodingChallenge …/>`
element, the ordered list of the names of the props it is given.  In every
instance the two props are `initialCode={…}` and `solution={…}`. -/

/-- Prop names of the three CodingChallenge elements of the "JSX Syntax -
Exercises" document (`src/pages/exercises/react/jsx-syntax-exercises.mdx`,
lines 62–79, 85–108 and 114–149). -/
def jsxSyntaxExercisesChallengeProps : List (List String) :=
  [["initialCode", "solution"], ["initialCode", "solution"],
   ["initialCode", "solution"]]

/-- Prop names of the three CodingChallenge elements of the "React
Components - Exercises" document (the second document stored in
`src/pages/exercises/react/jsx-syntax-exercises.mdx`, lines 221–238, 244–267
and 273–304). -/
def reactComponentsExercisesChallengeProps : List (List String) :=
  [["initialCode", "solution"], ["initialCode", "solution"],
   ["initialCode", "solution"]]

/-- Prop names of the two CodingChallenge elements of
`src/pages/exercises/react/introduction-to-react.mdx` (lines 48–65 and
71–92). -/
def introductionToReactChallengeProps : List (List String) :=
  [["initialCode", "solution"], ["initialCode", "solution"]]

/-- All CodingChallenge instantiations in the repository's exercise pages. -/
def codingChallengeInstanceProps : List (List String) :=
  jsxSyntaxExercisesChallengeProps ++ reactComponentsExercisesChallengeProps
    ++ introductionToReactChallengeProps

/-- C1: for every input, `ProgressTracker` renders exactly what the
specification prescribes — a filled bar whose width is
`round(completedTasks/totalTasks*100)` percent, plus the two counts; being a
pure function of the three props, it keeps no state and has no lifecycle. -/
theorem c1_progress_tracker_matches_spec (sect completedTasks totalTasks : JSNum) :
    ProgressTracker sect completedTasks totalTasks =
      progressTrackerSpecRender sect completedTasks totalTasks ∧
    (ProgressTracker sect completedTasks totalTasks).progressBarWidth =
      (percentageOf completedTasks totalTasks).display ++ "%" ∧
    (ProgressTracker sect completedTasks totalTasks).caption =
      completedTasks.display ++ " of " ++ totalTasks.display
        ++ " tasks completed (" ++ (percentageOf completedTasks totalTasks).display ++ "%)" := by
  refine ⟨rfl, rfl, rfl⟩

/-- C2, counterexample: `ProgressTracker` invoked with `totalTasks = 0` (and
`completedTasks = 0`, as in every failure the claim describes as prevented)
is not rejected by any validation — the component renders normally and the
UI silently shows "NaN%", in both the bar width and the caption. -/
theorem c2_counterexample_no_validation :
    ProgressTracker (JSNum.num 1) (JSNum.num 0) (JSNum.num 0) =
      { heading := "Section 1 Progress"
        progressBarWidth := "NaN%"
        caption := "0 of 0 tasks completed (NaN%)" } := by
  decide

/-- C2 (amended): `ProgressTracker` performs no validation of `totalTasks`;
with `totalTasks = 0` and `completedTasks = 0` it renders silently,
producing the nonsensical "NaN%" UI, for every value of the `section`
prop. -/
theorem c2_amended_nan_rendered_silently (sect : JSNum) :
    (ProgressTracker sect (JSNum.num 0) (JSNum.num 0)).progressBarWidth = "NaN%" ∧
    (ProgressTracker sect (JSNum.num 0) (JSNum.num 0)).caption =
      "0 of 0 tasks completed (NaN%)" := by
  exact ⟨rfl, rfl⟩

/-- C9: with `totalTasks = 0` the component still renders (it is a total
function), and the unguarded division makes the displayed percentage "NaN"
when `completedTasks = 0` and "Infinity" when `completedTasks > 0`
(and "-Infinity" when negative). -/
theorem c9_total_tasks_zero_renders_nan_or_infinity (sect : JSNum) (c : ℚ) :
    (ProgressTracker sect (JSNum.num c) (JSNum.num 0)).progressBarWidth =
      (if c = 0 then "NaN%" else if 0 < c then "Infinity%" else "-Infinity%") := by
  by_cases hc : c = 0
  · simp [ProgressTracker, percentageOf, jsDiv, jsMul, jsRound, JSNum.display, hc]
  · by_cases hpos : 0 < c
    · simp [ProgressTracker, percentageOf, jsDiv, jsMul, jsRound, JSNum.display, hc, hpos]
    · simp [ProgressTracker, percentageOf, jsDiv, jsMul, jsRound, JSNum.display, hc, hpos]

/-- C10, counterexample: the displayed percentage does NOT exceed 100 for
every input with `completedTasks > totalTasks > 0`, nor is it negative for
every `completedTasks < 0`: at `completedTasks = 1004, totalTasks = 1000`
the rounding brings 100.4 back to exactly 100, and at
`completedTasks = -1, totalTasks = 1000` the value -0.1 rounds to 0. -/
theorem c10_counterexample_rounding_margin :
    percentageOf (JSNum.num 1004) (JSNum.num 1000) = JSNum.num 100 ∧
    (ProgressTracker (JSNum.num 1) (JSNum.num 1004) (JSNum.num 1000)).progressBarWidth
      = "100%" ∧
    percentageOf (JSNum.num (-1)) (JSNum.num 1000) = JSNum.num 0 ∧
    (ProgressTracker (JSNum.num 1) (JSNum.num (-1)) (JSNum.num 1000)).progressBarWidth
      = "0%" := by
  have hrf : ∀ x : ℚ, (Rat.floor x : ℤ) = ⌊x⌋ := fun x => by
    rw [Rat.floor_def', Rat.floor_def]
  have h1 : percentageOf (JSNum.num 1004) (JSNum.num 1000) = JSNum.num 100 := by
    norm_num [percentageOf, jsDiv, jsMul, jsRound, hrf]
  have h2 : percentageOf (JSNum.num (-1)) (JSNum.num 1000) = JSNum.num 0 := by
    norm_num [percentageOf, jsDiv, jsMul, jsRound, hrf]
  refine ⟨h1, ?_, h2, ?_⟩
  · show (percentageOf (JSNum.num 1004) (JSNum.num 1000)).display ++ "%" = "100%"
    rw [h1]
    norm_num [JSNum.display]
    rfl
  · show (percentageOf (JSNum.num (-1)) (JSNum.num 1000)).display ++ "%" = "0%"
    rw [h2]
    norm_num [JSNum.display]
    rfl

/-- C10 (amended): `ProgressTracker` never clamps the percentage to
[0, 100].  For every input with `totalTasks > 0` and
`completedTasks ≥ 2·totalTasks`, the displayed percentage and the
progress-bar width exceed 100; for every input with `totalTasks > 0` and
`completedTasks ≤ -totalTasks`, they are negative.  (The original bounds
`completedTasks > totalTasks` and `completedTasks < 0` fail inside the
rounding margin, as the counterexample shows.) -/
theorem c10_amended_no_clamping (c t : ℚ) (ht : 0 < t) :
    (2 * t ≤ c → ∃ p : ℤ, percentageOf (JSNum.num c) (JSNum.num t) = JSNum.num (p : ℚ) ∧
      100 < p ∧
      ∀ sect, (ProgressTracker sect (JSNum.num c) (JSNum.num t)).progressBarWidth
        = toString p ++ "%") ∧
    (c ≤ -t → ∃ p : ℤ, percentageOf (JSNum.num c) (JSNum.num t) = JSNum.num (p : ℚ) ∧
      p < 0 ∧
      ∀ sect, (ProgressTracker sect (JSNum.num c) (JSNum.num t)).progressBarWidth
        = toString p ++ "%") := by
  have htne : t ≠ 0 := ne_of_gt ht
  have hrf : ∀ x : ℚ, (Rat.floor x : ℤ) = ⌊x⌋ := fun x => by
    rw [Rat.floor_def', Rat.floor_def]
  have hform : percentageOf (JSNum.num c) (JSNum.num t)
      = JSNum.num ((⌊c / t * 100 + 1 / 2⌋ : ℤ) : ℚ) := by
    simp [percentageOf, jsDiv, jsMul, jsRound, htne, hrf]
  have hwidth : ∀ sect, (ProgressTracker sect (JSNum.num c) (JSNum.num t)).progressBarWidth
      = toString (⌊c / t * 100 + 1 / 2⌋ : ℤ) ++ "%" := by
    intro sect
    simp [ProgressTracker, hform, JSNum.display, Rat.den_intCast, Rat.num_intCast]
  constructor
  · intro h2
    refine ⟨⌊c / t * 100 + 1 / 2⌋, hform, ?_, hwidth⟩
    have hct : (2 : ℚ) ≤ c / t := (le_div_iff₀ ht).mpr (by linarith)
    have h101 : ((101 : ℤ) : ℚ) ≤ c / t * 100 + 1 / 2 := by push_cast; linarith
    exact lt_of_lt_of_le (by norm_num) (Int.le_floor.mpr h101)
  · intro hneg
    refine ⟨⌊c / t * 100 + 1 / 2⌋, hform, ?_, hwidth⟩
    have hct : c / t ≤ (-1 : ℚ) := (div_le_iff₀ ht).mpr (by linarith)
    have hx : c / t * 100 + 1 / 2 ≤ (-199 : ℚ) / 2 := by linarith
    have hfl : ((⌊c / t * 100 + 1 / 2⌋ : ℤ) : ℚ) < 0 :=
      lt_of_le_of_lt (le_trans (Int.floor_le _) hx) (by norm_num)
    exact_mod_cast hfl

/-- C10 witness: the amended theorem applied at the concrete inputs
`(completedTasks, totalTasks) = (2, 1)` and `(-1, 1)`. -/
theorem c10_amended_no_clamping_witness :
    (∃ p : ℤ, percentageOf (JSNum.num 2) (JSNum.num 1) = JSNum.num (p : ℚ) ∧
      100 < p ∧
      ∀ sect, (ProgressTracker sect (JSNum.num 2) (JSNum.num 1)).progressBarWidth
        = toString p ++ "%") ∧
    (∃ p : ℤ, percentageOf (JSNum.num (-1)) (JSNum.num 1) = JSNum.num (p : ℚ) ∧
      p < 0 ∧
      ∀ sect, (ProgressTracker sect (JSNum.num (-1)) (JSNum.num 1)).progressBarWidth
        = toString p ++ "%") :=
  ⟨(c10_amended_no_clamping 2 1 (by norm_num)).1 (by norm_num),
   (c10_amended_no_clamping (-1) 1 (by norm_num)).2 (by norm_num)⟩

/-- C3: for every CodingChallenge state — including every state reached from
the initial state by an arbitrary sequence of actions, edits included —
`showSolution()` does not overwrite `draftCode`, and `showSolution()`
followed immediately by `hideSolution()` leaves `draftCode` identical to its
value before `showSolution()` was called. -/
theorem c3_show_hide_preserves_draft (evalFn : String → Except String String)
    (spec : ChallengeSpec) (ops : List ChallengeOp) :
    (CodingChallenge.showSolution
        (applyChallengeOps evalFn spec ops (CodingChallenge.initialState spec))).draftCode
      = (applyChallengeOps evalFn spec ops (CodingChallenge.initialState spec)).draftCode ∧
    (CodingChallenge.hideSolution (CodingChallenge.showSolution
        (applyChallengeOps evalFn spec ops (CodingChallenge.initialState spec)))).draftCode
      = (applyChallengeOps evalFn spec ops (CodingChallenge.initialState spec)).draftCode :=
  ⟨rfl, rfl⟩

/-- C4: when evaluating the displayed code throws (an `Except.error`),
`CodeSandbox.run` returns an error `Result` (as a total function it cannot
itself throw), and `CodingChallenge.run` stores that error description in
`lastRunOutput` while leaving `draftCode` and `viewingSolution` unchanged. -/
theorem c4_run_error_isolated (evalFn : String → Except String String)
    (spec : ChallengeSpec) (s : ChallengeState) (e : String)
    (h : evalFn (CodingChallenge.displayedCode spec s) = Except.error e) :
    CodeSandbox.run evalFn (CodingChallenge.displayedCode spec s)
      = RunResult.failure e ∧
    (CodingChallenge.run evalFn spec s).lastRunOutput
      = some (RunResult.failure e) ∧
    (CodingChallenge.run evalFn spec s).draftCode = s.draftCode ∧
    (CodingChallenge.run evalFn spec s).viewingSolution = s.viewingSolution := by
  have hr : CodeSandbox.run evalFn (CodingChallenge.displayedCode spec s)
      = RunResult.failure e := by
    simp [CodeSandbox.run, h]
  exact ⟨hr, by simp [CodingChallenge.run, hr], rfl, rfl⟩

/-- C4 witness: the theorem applied to a concrete evaluator that throws
"SyntaxError" on every input, on a freshly constructed challenge. -/
theorem c4_run_error_isolated_witness :
    (fun _ : String => (Except.error "SyntaxError" : Except String String))
        (CodingChallenge.displayedCode ⟨"bad code", "sol"⟩
          (CodingChallenge.initialState ⟨"bad code", "sol"⟩))
      = Except.error "SyntaxError" ∧
    CodeSandbox.run (fun _ => Except.error "SyntaxError")
        (CodingChallenge.displayedCode ⟨"bad code", "sol"⟩
          (CodingChallenge.initialState ⟨"bad code", "sol"⟩))
      = RunResult.failure "SyntaxError" ∧
    (CodingChallenge.run (fun _ => Except.error "SyntaxError") ⟨"bad code", "sol"⟩
        (CodingChallenge.initialState ⟨"bad code", "sol"⟩)).lastRunOutput
      = some (RunResult.failure "SyntaxError") ∧
    (CodingChallenge.run (fun _ => Except.error "SyntaxError") ⟨"bad code", "sol"⟩
        (CodingChallenge.initialState ⟨"bad code", "sol"⟩)).draftCode
      = (CodingChallenge.initialState ⟨"bad code", "sol"⟩).draftCode ∧
    (CodingChallenge.run (fun _ => Except.error "SyntaxError") ⟨"bad code", "sol"⟩
        (CodingChallenge.initialState ⟨"bad code", "sol"⟩)).viewingSolution
      = (CodingChallenge.initialState ⟨"bad code", "sol"⟩).viewingSolution := by
  refine ⟨rfl, ?_⟩
  exact c4_run_error_isolated (fun _ => Except.error "SyntaxError")
    ⟨"bad code", "sol"⟩ (CodingChallenge.initialState ⟨"bad code", "sol"⟩)
    "SyntaxError" rfl

/-- C5: for every QuizSpec whose `correctAnswer` is one of its `options`,
selecting `correctAnswer` then submitting yields `isCorrect = true`, and
selecting any distinct option then submitting yields `isCorrect = false`. -/
theorem c5_submit_correctness (spec : QuizSpec)
    (_hmem : spec.correctAnswer ∈ spec.options) :
    Quiz.isCorrect spec
        (Quiz.submit (Quiz.select spec.correctAnswer Quiz.initialState)) = true ∧
    ∀ o : String, o ≠ spec.correctAnswer →
      Quiz.isCorrect spec (Quiz.submit (Quiz.select o Quiz.initialState)) = false := by
  constructor
  · simp [Quiz.isCorrect, Quiz.submit, Quiz.select, Quiz.initialState]
  · intro o ho
    simp [Quiz.isCorrect, Quiz.submit, Quiz.select, Quiz.initialState, ho]

/-- C5 witness: the concrete quiz of spec §8 — question "2+2?", options
["3", "4", "5"], correct answer "4". -/
theorem c5_submit_correctness_witness :
    (QuizSpec.mk "2+2?" ["3", "4", "5"] "4").correctAnswer
      ∈ (QuizSpec.mk "2+2?" ["3", "4", "5"] "4").options ∧
    Quiz.isCorrect (QuizSpec.mk "2+2?" ["3", "4", "5"] "4")
      (Quiz.submit (Quiz.select "4" Quiz.initialState)) = true ∧
    Quiz.isCorrect (QuizSpec.mk "2+2?" ["3", "4", "5"] "4")
      (Quiz.submit (Quiz.select "3" Quiz.initialState)) = false :=
  ⟨by decide,
   (c5_submit_correctness (QuizSpec.mk "2+2?" ["3", "4", "5"] "4") (by decide)).1,
   (c5_submit_correctness (QuizSpec.mk "2+2?" ["3", "4", "5"] "4") (by decide)).2
     "3" (by decide)⟩

/-- C6: Quiz construction validates that `correctAnswer` is an element of
`options`: when it is absent, construction yields no instance (the
configuration error is caught at construction time); when present,
construction succeeds with the initial state. -/
theorem c6_construction_validates (spec : QuizSpec) :
    (spec.correctAnswer ∉ spec.options → Quiz.construct spec = none) ∧
    (spec.correctAnswer ∈ spec.options →
      Quiz.construct spec = some (spec, Quiz.initialState)) := by
  constructor
  · intro h
    simp [Quiz.construct, h]
  · intro h
    simp [Quiz.construct, h]

/-- C6 witness: a quiz whose correct answer is absent from its options is
rejected; one whose correct answer is present is constructed. -/
theorem c6_construction_validates_witness :
    Quiz.construct (QuizSpec.mk "q1" ["a", "b"] "z") = none ∧
    Quiz.construct (QuizSpec.mk "q2" ["a", "b"] "a")
      = some (QuizSpec.mk "q2" ["a", "b"] "a", Quiz.initialState) :=
  ⟨(c6_construction_validates (QuizSpec.mk "q1" ["a", "b"] "z")).1 (by decide),
   (c6_construction_validates (QuizSpec.mk "q2" ["a", "b"] "a")).2 (by decide)⟩

/-- C8: after every sequence of `select`/`submit` actions, `reset()` returns
the quiz to a state observably identical to a freshly constructed one —
`selectedOption` unset and `submitted = false`; moreover `reset` is a total
function available from every state. -/
theorem c8_reset_restores_initial (ops : List QuizOp) :
    Quiz.reset (applyQuizOps ops Quiz.initialState) = Quiz.initialState ∧
    (Quiz.reset (applyQuizOps ops Quiz.initialState)).selectedOption = none ∧
    (Quiz.reset (applyQuizOps ops Quiz.initialState)).submitted = false ∧
    ∀ s : QuizState, Quiz.reset s = Quiz.initialState :=
  ⟨rfl, rfl, rfl, fun _ => rfl⟩

/-- C7, counterexample: in the repository's exercise pages the reference
source text is passed under the prop name `solution`, not `solutionCode`:
the very first CodingChallenge instantiation
(`src/pages/exercises/react/jsx-syntax-exercises.mdx`, lines 62–79) has prop
names `["initialCode", "solution"]`, and no instantiation anywhere in the
exercise pages has a prop named `solutionCode`. -/
theorem c7_counterexample_prop_named_solution :
    codingChallengeInstanceProps.head? = some ["initialCode", "solution"] ∧
    codingChallengeInstanceProps.all
      (fun ps => !(ps.contains "solutionCode")) = true := by
  decide

/-- C7 (amended): every CodingChallenge instance in the repository's
exercise pages is constructed with exactly the two props named
`initialCode` and `solution` (the reference source text arrives under the
prop name `solution`). -/
theorem c7_amended_props_initialCode_solution (ps : List String)
    (h : ps ∈ codingChallengeInstanceProps) :
    ps = ["initialCode", "solution"] := by
  have hall : ∀ x ∈ codingChallengeInstanceProps,
      x = ["initialCode", "solution"] := by decide
  exact hall ps h

/-- C7 witness: the amended theorem applied to the prop list of the first
instantiation. -/
theorem c7_amended_props_initialCode_solution_witness :
    (["initialCode", "solution"] : List String) ∈ codingChallengeInstanceProps ∧
    (["initialCode", "solution"] : List String) = ["initialCode", "solution"] :=
  ⟨by decide, c7_amended_props_initialCode_solution ["initialCode", "solution"]
    (by decide)⟩
